import Mathlib

/-!
Shallow embedding of `h2o-py/h2o/automl/autoh2o.py` (class `H2OAutoML`).

The module is a thin client facade: the constructor builds a `build_control`
dictionary, `train` validates column references and builds an `input_spec`
dictionary, submits them to the remote builder endpoint, polls, and fetches the
leaderboard; `predict` re-fetches and delegates to the leader model.

The embedding models Python dictionaries as insertion-ordered association
lists, Python sets of column names as `Finset String` (Python set iteration
order is unspecified, so a transmitted `list(someset)` value is modelled as the
set itself), Python exceptions as an `Except` error type, and every remote
endpoint as an explicit response argument or oracle function, so that theorems
quantifying over all responses express independence from the network.
-/

/-- A Python value that can be passed for a column argument (`x`, `y`,
`fold_column`, `weights_column`): an int index, a string name, or (for `x`)
a list of such values. -/
inductive PyVal where
  | int : Int → PyVal
  | str : String → PyVal
  | list : List PyVal → PyVal

/-- A JSON-ish value stored in a transmitted dictionary. `jstrs` models a
Python `list(<set of strings>)` value: the iteration order of a Python set is
unspecified, so the payload is modelled up to ordering, as the set. -/
inductive JVal where
  | jint : Int → JVal
  | jstr : String → JVal
  | jrat : Rat → JVal
  | jstrs : Finset String → JVal
deriving DecidableEq

/-- A Python dictionary with string keys, as an insertion-ordered association
list: assignment to an existing key updates it in place, a new key is appended. -/
abbrev Dict := List (String × JVal)

/-- Python dict assignment `d[k] = v`: update in place if the key exists
(keeping its position), otherwise append. -/
def setKey : Dict → String → JVal → Dict
  | [], k, v => [(k, v)]
  | (k0, v0) :: rest, k, v =>
      if k0 = k then (k0, v) :: rest else (k0, v0) :: setKey rest k v

/-- Python dict lookup `d.get(k)`. -/
def getKey : Dict → String → Option JVal
  | [], _ => none
  | (k0, v0) :: rest, k => if k0 = k then some v0 else getKey rest k

/-- The Python exceptions the `train` path can raise. -/
inductive TrainError where
  | valueError : String → TrainError
  | h2oValueError : String → TrainError
  | typeError : String → TrainError
  | keyError : String → TrainError
  | attributeError : String → TrainError
deriving DecidableEq, Repr

instance {ε α : Type} [DecidableEq ε] [DecidableEq α] : DecidableEq (Except ε α) := fun a b =>
  match a, b with
  | .error e1, .error e2 =>
      if h : e1 = e2 then isTrue (congrArg Except.error h)
      else isFalse (fun hc => h (Except.error.inj hc))
  | .error _, .ok _ => isFalse (fun hc => Except.noConfusion hc)
  | .ok _, .error _ => isFalse (fun hc => Except.noConfusion hc)
  | .ok a1, .ok a2 =>
      if h : a1 = a2 then isTrue (congrArg Except.ok h)
      else isFalse (fun hc => h (Except.ok.inj hc))

/-- The training frame as `train` consumes it: `frame_id` and the column
names; `ncols` is the length of `names`. -/
structure H2OFrame where
  frame_id : String
  names : List String
deriving DecidableEq, Repr

/-- Python list indexing `names[i]` after the bounds check `-len ≤ i < len`
has succeeded: a negative index counts from the end. -/
def pyListGet (names : List String) (i : Int) : String :=
  if 0 ≤ i then names.getD i.toNat "" else names.getD (names.length - (-i).toNat) ""

/-- Lines 212-219: `assert_is_type(y, int, str)` followed by resolution of the
response column: an int index is bounds-checked and resolved through the name
list, a string is checked for membership. -/
def resolveY (ncols : Nat) (names : List String) : PyVal → Except TrainError String
  | .int i =>
      if -(ncols : Int) ≤ i ∧ i < ncols then
        .ok (pyListGet names i)
      else
        .error (.h2oValueError ("Column " ++ toString i ++ " does not exist in the training frame"))
  | .str s =>
      if s ∈ names then .ok s
      else .error (.h2oValueError ("Column " ++ s ++ " does not exist in the training frame"))
  | .list _ => .error (.typeError "y")

/-- Lines 209-219: the required response argument; `None` raises a
`ValueError`, otherwise the column reference is resolved. -/
def respStage (ncols : Nat) (names : List String) : Option PyVal → Except TrainError String
  | none => .error (.valueError "The response column (y) is not set; please set it to the name of the column that you are trying to predict in your data.")
  | some yv => resolveY ncols names yv

/-- Models `assert_is_type(v, int, str)`: passes through an int or a string (as the
dictionary value it is stored as), rejects anything else. -/
def assertIntStr (arg : String) : PyVal → Except TrainError JVal
  | .int i => .ok (.jint i)
  | .str s => .ok (.jstr s)
  | .list _ => .error (.typeError arg)

/-- Models `is_type(v, int, str)`. -/
def pyIsIntStr : PyVal → Bool
  | .int _ => true
  | .str _ => true
  | .list _ => false

/-- Lines 246-249: `assert_is_type(x, list)` followed by the single-value
normalization `if is_type(x, int, str): x = [x]`. The assertion only lets a
list through, so the normalization branch can never fire. -/
def normalizeX : PyVal → Except TrainError (List PyVal)
  | .list l => .ok (if pyIsIntStr (.list l) then [PyVal.list l] else l)
  | .int _ => .error (.typeError "x")
  | .str _ => .error (.typeError "x")

/-- Lines 250-258: resolution of one element of `x`: an int index is
bounds-checked and resolved, anything else is tested for membership in the
name list (a non-string is never a member). -/
def resolveXElem (ncols : Nat) (names : List String) : PyVal → Except TrainError String
  | .int i =>
      if -(ncols : Int) ≤ i ∧ i < ncols then
        .ok (pyListGet names i)
      else
        .error (.h2oValueError ("Column " ++ toString i ++ " does not exist in the training frame"))
  | .str s =>
      if s ∈ names then .ok s
      else .error (.h2oValueError ("Column " ++ s ++ " not in the training frame"))
  | .list _ => .error (.h2oValueError "Column <unhashable> not in the training frame")

/-- The `for xi in x` loop building `xset`: resolves each element in order,
stopping at the first error, and collects the resolved names into a set. -/
def resolveXList (ncols : Nat) (names : List String) : List PyVal → Except TrainError (Finset String)
  | [] => .ok ∅
  | xi :: rest =>
      match resolveXElem ncols names xi with
      | .error e => .error e
      | .ok n =>
          match resolveXList ncols names rest with
          | .error e => .error e
          | .ok s => .ok (insert n s)

/-- Models the Python statement `s = s.remove(v)` on a set of strings:
`set.remove` mutates the set and returns `None`, so the rebound variable
becomes `None` on success; if `v` is not in the set a `KeyError` is raised (a
non-string value is never in a set of strings). -/
def pySetRemove (s : Finset String) (v : PyVal) : Except TrainError (Option (Finset String)) :=
  match v with
  | .str n => if n ∈ s then .ok none else .error (.keyError n)
  | .int i => .error (.keyError (toString i))
  | .list _ => .error (.typeError "unhashable type")

/-- Lines 261-262: the fold/weights removal from the ignored set. Each given
column is "removed" with `ignored_columns = ignored_columns.remove(col)`,
which rebinds the variable to `None` (or raises `KeyError`); a second removal
on an already-`None` variable raises an `AttributeError`. -/
def ignoredStage (fold_column weights_column : Option PyVal) (ignored0 : Finset String) :
    Except TrainError (Option (Finset String)) :=
  match fold_column with
  | none =>
      match weights_column with
      | none => .ok (some ignored0)
      | some w => pySetRemove ignored0 w
  | some f =>
      match pySetRemove ignored0 f with
      | .error e => .error e
      | .ok ig1 =>
          match weights_column with
          | none => .ok ig1
          | some w =>
              match ig1 with
              | none => .error (.attributeError "NoneType object has no attribute remove")
              | some s => pySetRemove s w

/-- Lines 246-264: the whole `x` block. When `x` is absent the input spec is
returned unchanged (no `ignored_columns` entry is ever written); otherwise the
predictors are resolved, `ignored_columns = set(names) - {y} - set(x)` is
computed, fold/weights removal is applied, and the entry is written only when
the resulting variable is not `None`. -/
def xStage (ncols : Nat) (names : List String) (yname : String)
    (fold_column weights_column : Option PyVal) (x : Option PyVal) (ispec : Dict) :
    Except TrainError Dict :=
  match x with
  | none => .ok ispec
  | some xv =>
      match normalizeX xv with
      | .error e => .error e
      | .ok xs =>
          match resolveXList ncols names xs with
          | .error e => .error e
          | .ok xset =>
              match ignoredStage fold_column weights_column ((names.toFinset \ {yname}) \ xset) with
              | .error e => .error e
              | .ok (some s) => .ok (setKey ispec "ignored_columns" (JVal.jstrs s))
              | .ok none => .ok ispec

/-- Lines 230-236: the optional fold/weights arguments: type-asserted and
written into the input spec under the given key as passed (index or name). -/
def optColStage (arg key : String) (c : Option PyVal) (ispec : Dict) : Except TrainError Dict :=
  match c with
  | none => .ok ispec
  | some v =>
      match assertIntStr arg v with
      | .error e => .error e
      | .ok jv => .ok (setKey ispec key jv)

/-- Lines 238-244: the optional validation/leaderboard frames: only their
frame ids are written into the input spec. -/
def optFrameStage (key : String) (f : Option H2OFrame) (ispec : Dict) : Dict :=
  match f with
  | none => ispec
  | some fr => setKey ispec key (JVal.jstr fr.frame_id)

/-- Lines 205-264 of `H2OAutoML.train`: validation and construction of the
`input_spec` dictionary, in source order: response, training frame id, fold
column, weights column, validation frame, leaderboard frame, then the `x`
block with the ignored-columns computation. Any raise aborts with the error
before the build request is submitted. -/
def buildRequest (training_frame : H2OFrame)
    (x y fold_column weights_column : Option PyVal)
    (validation_frame leaderboard_frame : Option H2OFrame) : Except TrainError Dict :=
  match respStage training_frame.names.length training_frame.names y with
  | .error e => .error e
  | .ok yname =>
      match optColStage "fold_column" "fold_column" fold_column
          (setKey [("response_column", JVal.jstr yname)] "training_frame"
            (JVal.jstr training_frame.frame_id)) with
      | .error e => .error e
      | .ok ispec1 =>
          match optColStage "weights_column" "weights_column" weights_column ispec1 with
          | .error e => .error e
          | .ok ispec2 =>
              xStage training_frame.names.length training_frame.names yname
                fold_column weights_column x
                (optFrameStage "leaderboard_frame" leaderboard_frame
                  (optFrameStage "validation_frame" validation_frame ispec2))

/-- The `build_control` dictionary: a `stopping_criteria` sub-dictionary plus
an optional top-level `project_name` entry (the only other key ever written). -/
structure BuildControl where
  stopping_criteria : Dict
  project_name : Option String
deriving DecidableEq

/-- An opaque remote model handle (`h2o.get_model` result), identified by id. -/
abbrev Model := String

/-- An error raised by an external h2o collaborator (`h2o.get_model`, the
model's own `predict`, …). -/
abbrev H2OError := String

/-- The `job` entry of the builder response: the remote job reference wrapped in
`H2OJob`, of which only `dest_key` is consumed. -/
structure JobRef where
  dest_key : String
deriving DecidableEq, Repr

/-- The response of `POST /99/AutoMLBuilder`: an optional `job` entry and the
response body (printed when `job` is missing). -/
structure BuildResp where
  job : Option JobRef
  body : String
deriving DecidableEq, Repr

/-- The response of `GET /99/AutoML/<key>` as `_fetch` consumes it:
`res['leaderboard']['models']` reduced to its list of model names, and
`res['leaderboard_table']` as rows (first row is the header). -/
structure FetchResp where
  models : List String
  leaderboard_table : List (List String)
deriving DecidableEq, Repr

/-- The mutable fields of an `H2OAutoML` instance. `_leaderboard` holds the
materialized leaderboard table (header row dropped); `_model` is the model
object cached by `predict`. -/
structure AutoMLState where
  build_control : BuildControl
  project_name : Option String
  _job : Option JobRef
  _automl_key : Option String
  _leader_id : Option String
  _leaderboard : Option (List (List String))
  _model : Option Model
deriving DecidableEq

/-- Lines 56-136, `H2OAutoML.__init__`: builds the `build_control` dictionary.
`max_runtime_secs`, `stopping_metric`, `stopping_tolerance` and
`stopping_rounds` are written on both branches of their default tests (the
`is not <default>` tests only decide whether a type assertion runs), so they
are always present; `max_models`, `seed` and `project_name` are written only
when the caller supplied them (`is not None`). Tolerance is a client-side
literal never computed with, so it is modelled as a rational. -/
def automlInit (max_runtime_secs : Int) (max_models : Option Int)
    (stopping_metric : String) (stopping_tolerance : Rat) (stopping_rounds : Int)
    (seed : Option Int) (project_name : Option String) : AutoMLState :=
  let sc : Dict := [("max_runtime_secs", JVal.jint max_runtime_secs)]
  let sc : Dict :=
    match max_models with
    | some m => setKey sc "max_models" (JVal.jint m)
    | none => sc
  let sc : Dict := setKey sc "stopping_metric" (JVal.jstr stopping_metric)
  let sc : Dict := setKey sc "stopping_tolerance" (JVal.jrat stopping_tolerance)
  let sc : Dict := setKey sc "stopping_rounds" (JVal.jint stopping_rounds)
  let sc : Dict :=
    match seed with
    | some s => setKey sc "seed" (JVal.jint s)
    | none => sc
  { build_control := { stopping_criteria := sc, project_name := project_name },
    project_name := project_name,
    _job := none, _automl_key := none, _leader_id := none, _leaderboard := none,
    _model := none }

/-- Lines 313-322, `H2OAutoML._fetch`, applied to a given remote response:
sets `_leader_id` to the first leaderboard model name (or `None` when the list
is empty), replaces `_leaderboard` wholesale with the materialized table
(header row dropped), and returns whether a leader now exists. -/
def _fetch (st : AutoMLState) (res : FetchResp) : AutoMLState × Bool :=
  let leaderboard_list := res.models
  let st1 : AutoMLState :=
    { st with
      _leader_id := if leaderboard_list.length > 0 then leaderboard_list.head? else none,
      _leaderboard := some (res.leaderboard_table.drop 1) }
  (st1, st1._leader_id.isSome)

/-- What a `train` call that reached the builder endpoint produced: the new
instance state, the transmitted `{input_spec, build_control}` payload, and
whatever was printed. -/
structure TrainOutcome where
  state : AutoMLState
  sent_input_spec : Dict
  sent_build_control : BuildControl
  printed : List String
deriving DecidableEq

/-- Lines 179-283, `H2OAutoML.train`, with the two remote responses (builder
endpoint, AutoML-run query) passed explicitly. Validation errors abort before
the build request is submitted, so an `Except.error` result is produced
without consulting either response. On submission: a response without a `job`
entry is printed and the call returns with the state untouched; otherwise the
job is stored, polled (an external blocking primitive, assumed to return),
`_fetch` runs, and a default project name is assigned if none was set. -/
def train (st : AutoMLState) (training_frame : H2OFrame)
    (x y fold_column weights_column : Option PyVal)
    (validation_frame leaderboard_frame : Option H2OFrame)
    (resp : BuildResp) (fres : FetchResp) : Except TrainError TrainOutcome :=
  match buildRequest training_frame x y fold_column weights_column
      validation_frame leaderboard_frame with
  | .error e => .error e
  | .ok input_spec =>
      match resp.job with
      | none =>
          .ok { state := st, sent_input_spec := input_spec,
                sent_build_control := st.build_control,
                printed := ["Exception from the back end: ", resp.body] }
      | some job =>
          let st1 : AutoMLState := { st with _job := some job, _automl_key := some job.dest_key }
          let st2 : AutoMLState := (_fetch st1 fres).1
          let st3 : AutoMLState :=
            match st2.project_name with
            | none => { st2 with project_name := some ("automl_" ++ training_frame.frame_id) }
            | some _ => st2
          .ok { state := st3, sent_input_spec := input_spec,
                sent_build_control := st.build_control, printed := [] }

/-- Lines 141-156, the `leader` property: unconditionally delegates to
`h2o.get_model` with the stored leader id — there is no local check for an
unset id. `getModel` is the external lookup, which may itself raise. -/
def leader (getModel : Option String → Except H2OError Model) (st : AutoMLState) :
    Except H2OError Model :=
  getModel st._leader_id

/-- Lines 288-308, `H2OAutoML.predict`, with the AutoML-run query response and
the external model collaborators passed explicitly: first `_fetch` runs (its
state mutation persists whatever happens next); when it reports a leader, the
leader model is looked up, cached in `_model`, and its own `predict` result is
returned; otherwise a message is printed and `None` is returned. The middle
component is the returned value (or the error an external lookup raised). -/
def predict {π : Type} (getModel : Option String → Except H2OError Model)
    (modelPredict : Model → H2OFrame → π) (st : AutoMLState) (res : FetchResp)
    (test_data : H2OFrame) : AutoMLState × Except H2OError (Option π) × List String :=
  let p := _fetch st res
  if p.2 then
    match getModel p.1._leader_id with
    | .error e => (p.1, .error e, [])
    | .ok m => ({ p.1 with _model := some m }, .ok (some (modelPredict m test_data)), [])
  else
    (p.1, .ok none, ["No model built yet..."])

/-! ## Dictionary lemmas -/

theorem getKey_setKey_self (d : Dict) (k : String) (v : JVal) :
    getKey (setKey d k v) k = some v := by
  induction d with
  | nil => simp [setKey, getKey]
  | cons p rest ih =>
      obtain ⟨k0, v0⟩ := p
      by_cases h : k0 = k
      · simp [setKey, getKey, h]
      · simp [setKey, getKey, h, ih]

theorem getKey_setKey_other (d : Dict) (k k2 : String) (v : JVal) (h : k2 ≠ k) :
    getKey (setKey d k v) k2 = getKey d k2 := by
  induction d with
  | nil => simp [setKey, getKey, Ne.symm h]
  | cons p rest ih =>
      obtain ⟨k0, v0⟩ := p
      by_cases h0 : k0 = k
      · subst h0
        simp [setKey, getKey, Ne.symm h]
      · simp [setKey, getKey, h0, ih]

/-! ## Claim theorems -/

/-- C3: for every constructor invocation, the transmitted build-control
structure always contains `max_runtime_secs`, `stopping_metric`,
`stopping_tolerance` and `stopping_rounds` under `stopping_criteria` (even at
their defaults), contains `max_models`, `seed` and `project_name` exactly when
the caller supplied them, and `train` sends the instance's `build_control`
verbatim on every submission. -/
theorem build_control_fields (mrs : Int) (mm : Option Int) (sm : String)
    (stol : Rat) (srnd : Int) (sd : Option Int) (pn : Option String) :
    getKey (automlInit mrs mm sm stol srnd sd pn).build_control.stopping_criteria
        "max_runtime_secs" = some (JVal.jint mrs)
    ∧ getKey (automlInit mrs mm sm stol srnd sd pn).build_control.stopping_criteria
        "stopping_metric" = some (JVal.jstr sm)
    ∧ getKey (automlInit mrs mm sm stol srnd sd pn).build_control.stopping_criteria
        "stopping_tolerance" = some (JVal.jrat stol)
    ∧ getKey (automlInit mrs mm sm stol srnd sd pn).build_control.stopping_criteria
        "stopping_rounds" = some (JVal.jint srnd)
    ∧ getKey (automlInit mrs mm sm stol srnd sd pn).build_control.stopping_criteria
        "max_models" = Option.map JVal.jint mm
    ∧ getKey (automlInit mrs mm sm stol srnd sd pn).build_control.stopping_criteria
        "seed" = Option.map JVal.jint sd
    ∧ (automlInit mrs mm sm stol srnd sd pn).build_control.project_name = pn
    ∧ (∀ (st : AutoMLState) (tf : H2OFrame) (x y f w : Option PyVal)
          (vf lf : Option H2OFrame) (resp : BuildResp) (fres : FetchResp),
        match train st tf x y f w vf lf resp fres with
        | Except.ok o => o.sent_build_control = st.build_control
        | Except.error _ => True) := by
  refine ⟨?_, ?_, ?_, ?_, ?_, ?_, ?_, ?_⟩
  · cases mm <;> cases sd <;> simp [automlInit, getKey, setKey]
  · cases mm <;> cases sd <;> simp [automlInit, getKey, setKey]
  · cases mm <;> cases sd <;> simp [automlInit, getKey, setKey]
  · cases mm <;> cases sd <;> simp [automlInit, getKey, setKey]
  · cases mm <;> cases sd <;> simp [automlInit, getKey, setKey]
  · cases mm <;> cases sd <;> simp [automlInit, getKey, setKey]
  · rfl
  · intro st tf x y f w vf lf resp fres
    cases hbr : buildRequest tf x y f w vf lf with
    | error e => simp [train, hbr]
    | ok d =>
        cases hj : resp.job with
        | none => simp [train, hbr, hj]
        | some j => simp [train, hbr, hj]

/-- C5: for every train call whose build-request response lacks a `job`
reference, `train` returns without raising, the response body is surfaced as
diagnostic output, and the instance state is exactly what it was before the
submission; the only errors `train` can produce come from the pre-submission
validation stage, never from the missing-job path. -/
theorem train_missing_job_silent (st : AutoMLState) (tf : H2OFrame)
    (x y f w : Option PyVal) (vf lf : Option H2OFrame) (body : String)
    (fres : FetchResp) :
    match train st tf x y f w vf lf ⟨none, body⟩ fres with
    | Except.ok o =>
        o.state = st ∧ o.printed = ["Exception from the back end: ", body]
    | Except.error e => buildRequest tf x y f w vf lf = Except.error e := by
  cases hbr : buildRequest tf x y f w vf lf with
  | error e => simp [train, hbr]
  | ok d => simp [train, hbr]

/-- C6: for a fixed remote-run response, `_fetch` is idempotent (a second call
replaces the leader and leaderboard with the same values), sets the leader to
the first entry of the model list (or none when it is empty), materializes the
leaderboard table with its header row dropped, and returns true exactly when a
leader exists. -/
theorem fetch_idempotent_leader_head (st : AutoMLState) (res : FetchResp) :
    _fetch (_fetch st res).1 res = _fetch st res
    ∧ (_fetch st res).1._leader_id = res.models.head?
    ∧ (_fetch st res).2 = (res.models.head?).isSome
    ∧ (_fetch st res).1._leaderboard = some (res.leaderboard_table.drop 1) := by
  obtain ⟨models, table⟩ := res
  cases models with
  | nil => simp [_fetch]
  | cons m ms => simp [_fetch]

/-- C8: for every predict call (on an instance whose run key resolves to the
given response), when a leader exists the call delegates to the leader model's
own prediction capability and returns its result (caching the looked-up
model); when the leaderboard is empty it prints the no-model message and
returns the Python `None`, raising nothing. -/
theorem predict_delegates_or_reports {π : Type}
    (gm : Option String → Except H2OError Model) (mp : Model → H2OFrame → π)
    (st : AutoMLState) (res : FetchResp) (t : H2OFrame) :
    (∀ m ms mdl, res.models = m :: ms → gm (some m) = Except.ok mdl →
        predict gm mp st res t =
          ({ (_fetch st res).1 with _model := some mdl },
           Except.ok (some (mp mdl t)), []))
    ∧ (res.models = [] →
        predict gm mp st res t =
          ((_fetch st res).1, Except.ok none, ["No model built yet..."])) := by
  obtain ⟨models, table⟩ := res
  constructor
  · intro m ms mdl hres hgm
    cases hres
    simp [predict, _fetch, hgm]
  · intro hres
    cases hres
    simp [predict, _fetch]

/-- Witness for C8 at concrete inputs: a one-model leaderboard delegates to
the leader model's prediction, an empty leaderboard reports the no-model
condition. -/
theorem predict_delegates_or_reports_witness :
    predict (fun _ => Except.ok "m1") (fun _ _ => "pred")
        (automlInit 3600 none "AUTO" (1/1000) 3 none none)
        ⟨["m1"], [["hd"], ["row"]]⟩ ⟨"T", []⟩
      = ({ (_fetch (automlInit 3600 none "AUTO" (1/1000) 3 none none)
              ⟨["m1"], [["hd"], ["row"]]⟩).1 with _model := some "m1" },
         Except.ok (some "pred"), [])
    ∧ predict (fun _ => Except.ok "m1") (fun _ _ => "pred")
        (automlInit 3600 none "AUTO" (1/1000) 3 none none) ⟨[], []⟩ ⟨"T", []⟩
      = ((_fetch (automlInit 3600 none "AUTO" (1/1000) 3 none none) ⟨[], []⟩).1,
         Except.ok none, ["No model built yet..."]) :=
  ⟨(predict_delegates_or_reports (fun _ => Except.ok "m1") (fun _ _ => "pred")
      (automlInit 3600 none "AUTO" (1/1000) 3 none none)
      ⟨["m1"], [["hd"], ["row"]]⟩ ⟨"T", []⟩).1 "m1" [] "m1" rfl rfl,
   (predict_delegates_or_reports (fun _ => Except.ok "m1") (fun _ _ => "pred")
      (automlInit 3600 none "AUTO" (1/1000) 3 none none) ⟨[], []⟩ ⟨"T", []⟩).2 rfl⟩

/-- C10: every predict call first runs `_fetch`, wholesale replacing the
stored leader identifier and leaderboard with response-derived values before
any prediction is attempted (the prediction, when one happens, is computed from
the freshly fetched leader, through the external model lookup); and predict
mutates no instance fields other than `_leader_id`, `_leaderboard` and the
cached `_model` — `_job`, `_automl_key`, `project_name` and the build control
are unchanged. -/
theorem predict_effects {π : Type}
    (gm : Option String → Except H2OError Model) (mp : Model → H2OFrame → π)
    (st : AutoMLState) (res : FetchResp) (t : H2OFrame) :
    (predict gm mp st res t).1.build_control = st.build_control
    ∧ (predict gm mp st res t).1.project_name = st.project_name
    ∧ (predict gm mp st res t).1._job = st._job
    ∧ (predict gm mp st res t).1._automl_key = st._automl_key
    ∧ (predict gm mp st res t).1._leader_id = res.models.head?
    ∧ (predict gm mp st res t).1._leaderboard = some (res.leaderboard_table.drop 1)
    ∧ (predict gm mp st res t).2.1 =
        (match res.models.head? with
         | none => Except.ok none
         | some m => Except.map (fun mdl => some (mp mdl t)) (gm (some m)))
    ∧ (predict gm mp st res t).1._model =
        (match res.models.head? with
         | none => st._model
         | some m =>
             match gm (some m) with
             | Except.ok mdl => some mdl
             | Except.error _ => st._model) := by
  obtain ⟨models, table⟩ := res
  cases models with
  | nil => simp [predict, _fetch]
  | cons m ms =>
      cases hgm : gm (some m) with
      | error e => simp [predict, _fetch, hgm, Except.map]
      | ok mdl => simp [predict, _fetch, hgm, Except.map]

/-- The concrete training frame (columns a, b, c, target) used to evaluate the
ignored-columns computation. -/
def frameABCT : H2OFrame := ⟨"F", ["a", "b", "c", "target"]⟩

/-- C1: evaluation of the ignored-columns computation. Without fold/weights
columns the transmitted entry is exactly (all columns) minus response minus
predictors; but giving `fold_column = "b"` makes
`ignored_columns = ignored_columns.remove("b")` rebind the set to Python
`None` (as `set.remove` returns `None`), so the entry claimed to equal
`{"c"}` is silently omitted from the input spec; and giving a fold column
that is not in the computed set (here `"a"`, a predictor) raises a `KeyError`
instead of completing. -/
theorem ignored_columns_fold_bug :
    buildRequest frameABCT (some (.list [.str "a"])) (some (.str "target"))
        none none none none
      = Except.ok [("response_column", JVal.jstr "target"),
                   ("training_frame", JVal.jstr "F"),
                   ("ignored_columns", JVal.jstrs {"b", "c"})]
    ∧ buildRequest frameABCT (some (.list [.str "a"])) (some (.str "target"))
        (some (.str "b")) none none none
      = Except.ok [("response_column", JVal.jstr "target"),
                   ("training_frame", JVal.jstr "F"),
                   ("fold_column", JVal.jstr "b")]
    ∧ buildRequest frameABCT (some (.list [.str "a"])) (some (.str "target"))
        (some (.str "a")) none none none
      = Except.error (TrainError.keyError "a") := by
  refine ⟨?_, ?_, ?_⟩ <;> decide

/-- The concrete training frame (columns a, b, target) of the C4 scenario. -/
def frameABT : H2OFrame := ⟨"F", ["a", "b", "target"]⟩

/-- The input spec the code actually transmits in the C4 scenario. -/
def specABT : Dict := [("response_column", JVal.jstr "target"),
                       ("training_frame", JVal.jstr "F")]

/-- C4 counterexample: for `train(y = "target", training_frame = F)` with no
`x`, the transmitted input spec has NO `ignored_columns` entry at all — the
claimed present-and-empty field is absent, because the whole ignored-columns
block only runs when `x` is given. -/
theorem no_x_spec_counterexample :
    buildRequest frameABT none (some (.str "target")) none none none none
      = Except.ok specABT
    ∧ getKey specABT "ignored_columns" = none := by
  refine ⟨?_, ?_⟩ <;> decide

/-- C4 (amended): in the defaults-only scenario `train(y = "target",
training_frame = F)` with F having columns [a, b, target], the transmitted
input spec is exactly `{response_column: "target", training_frame: F.id}` —
the `ignored_columns` field is omitted entirely when `x` is not given, leaving
all non-response columns implicitly predictors on the server side. -/
theorem no_x_input_spec :
    buildRequest frameABT none (some (.str "target")) none none none none
      = Except.ok [("response_column", JVal.jstr "target"),
                   ("training_frame", JVal.jstr "F")] := by
  decide

/-- An external model lookup that raises when handed the Python `None`
identifier (the remote server rejects `GET /3/Models/None`). -/
def getModelStrict : Option String → Except H2OError Model
  | none => .error "Error: Model None does not exist"
  | some i => .ok i

/-- C7 counterexample: on a freshly constructed instance (no run completed,
leader identifier unset) the `leader` property does NOT return a
none-equivalent without remote work: it hands the unset identifier straight to
the remote model lookup, so under a lookup that rejects a `None` id the
property raises. -/
theorem leader_unset_counterexample :
    leader getModelStrict (automlInit 3600 none "AUTO" (1/1000) 3 none none)
      = Except.error "Error: Model None does not exist" := rfl

/-- C7 (amended): reading the `leader` property always performs the remote
model lookup with the stored leader identifier — on an instance with no
completed run it passes the none identifier to the lookup; there is no local
none short-circuit, and whether a none-equivalent comes back or an error is
raised is decided entirely by the external lookup. -/
theorem leader_always_delegates (g : Option String → Except H2OError Model) :
    (∀ st : AutoMLState, leader g st = g st._leader_id)
    ∧ (∀ (mrs : Int) (mm : Option Int) (sm : String) (stol : Rat) (srnd : Int)
          (sd : Option Int) (pn : Option String),
        leader g (automlInit mrs mm sm stol srnd sd pn) = g none) :=
  ⟨fun _ => rfl, fun _ _ _ _ _ _ _ => rfl⟩

/-- C2: for every out-of-range integer column reference (|index| beyond the
training frame's column count) passed as `y`, or as an element of `x` (with a
valid response), `train` aborts with the column-does-not-exist error message of
the raise site, for every possible remote response — i.e. before the build
request is submitted, so no network call occurs. (At runtime CPython raises a
`NameError` at this site instead, as `H2OValueError` is never imported in the
module; the abort before any network interaction is the same.) -/
theorem train_oob_column_aborts (tf : H2OFrame) (i : Int)
    (h : ¬(-(tf.names.length : Int) ≤ i ∧ i < (tf.names.length : Int))) :
    (∀ (st : AutoMLState) (x f w : Option PyVal) (vf lf : Option H2OFrame)
        (resp : BuildResp) (fres : FetchResp),
      train st tf x (some (.int i)) f w vf lf resp fres
        = Except.error (.h2oValueError
            ("Column " ++ toString i ++ " does not exist in the training frame")))
    ∧ (∀ (st : AutoMLState) (yn : String), yn ∈ tf.names →
        ∀ (resp : BuildResp) (fres : FetchResp),
      train st tf (some (.list [.int i])) (some (.str yn)) none none none none resp fres
        = Except.error (.h2oValueError
            ("Column " ++ toString i ++ " does not exist in the training frame"))) := by
  constructor
  · intro st x f w vf lf resp fres
    have hy : respStage tf.names.length tf.names (some (.int i))
        = Except.error (.h2oValueError
            ("Column " ++ toString i ++ " does not exist in the training frame")) := by
      simp only [respStage, resolveY]
      rw [if_neg h]
    simp [train, buildRequest, hy]
  · intro st yn hyn resp fres
    have hy : respStage tf.names.length tf.names (some (.str yn)) = Except.ok yn := by
      simp [respStage, resolveY, hyn]
    have hxe : resolveXElem tf.names.length tf.names (.int i)
        = Except.error (.h2oValueError
            ("Column " ++ toString i ++ " does not exist in the training frame")) := by
      simp only [resolveXElem]
      rw [if_neg h]
    simp [train, buildRequest, hy, optColStage, optFrameStage, xStage, normalizeX,
      pyIsIntStr, resolveXList, hxe]

/-- Witness for C2 at a concrete input: a 3-column frame with `y = 5`, and
with `x = [5]`, aborts with the column error for a fixed arbitrary remote. -/
theorem train_oob_column_aborts_witness :
    train (automlInit 3600 none "AUTO" (1/1000) 3 none none) ⟨"F", ["a", "b", "c"]⟩
        none (some (.int 5)) none none none none ⟨none, ""⟩ ⟨[], []⟩
      = Except.error (.h2oValueError
          ("Column " ++ toString (5 : Int) ++ " does not exist in the training frame"))
    ∧ train (automlInit 3600 none "AUTO" (1/1000) 3 none none) ⟨"F", ["a", "b", "c"]⟩
        (some (.list [.int 5])) (some (.str "a")) none none none none ⟨none, ""⟩ ⟨[], []⟩
      = Except.error (.h2oValueError
          ("Column " ++ toString (5 : Int) ++ " does not exist in the training frame")) :=
  ⟨(train_oob_column_aborts ⟨"F", ["a", "b", "c"]⟩ 5 (by decide)).1
      (automlInit 3600 none "AUTO" (1/1000) 3 none none) none none none none none
      ⟨none, ""⟩ ⟨[], []⟩,
   (train_oob_column_aborts ⟨"F", ["a", "b", "c"]⟩ 5 (by decide)).2
      (automlInit 3600 none "AUTO" (1/1000) 3 none none) "a" (by decide)
      ⟨none, ""⟩ ⟨[], []⟩⟩

/-- C9: when `x` is a bare column name or bare integer index rather than a
list, `train` aborts with the type-mismatch error of `assert_is_type(x, list)`
for every remote response; and the subsequent single-value normalization
branch is unreachable — any `x` that survives the assertion is a list, on
which `is_type(x, int, str)` is false, so the value is never wrapped. -/
theorem train_bare_x_rejected (tf : H2OFrame) (yn : String) (h : yn ∈ tf.names) :
    (∀ (st : AutoMLState) (i : Int) (resp : BuildResp) (fres : FetchResp),
      train st tf (some (.int i)) (some (.str yn)) none none none none resp fres
        = Except.error (.typeError "x"))
    ∧ (∀ (st : AutoMLState) (s : String) (resp : BuildResp) (fres : FetchResp),
      train st tf (some (.str s)) (some (.str yn)) none none none none resp fres
        = Except.error (.typeError "x"))
    ∧ (∀ l : List PyVal, normalizeX (.list l) = Except.ok l) := by
  have hy : respStage tf.names.length tf.names (some (.str yn)) = Except.ok yn := by
    simp [respStage, resolveY, h]
  refine ⟨?_, ?_, ?_⟩
  · intro st i resp fres
    simp [train, buildRequest, hy, optColStage, optFrameStage, xStage, normalizeX]
  · intro st s resp fres
    simp [train, buildRequest, hy, optColStage, optFrameStage, xStage, normalizeX]
  · intro l
    simp [normalizeX, pyIsIntStr]

/-- Witness for C9 at a concrete input: a bare index and a bare name for `x`
are both rejected, and a genuine list passes the normalization unchanged. -/
theorem train_bare_x_rejected_witness :
    train (automlInit 3600 none "AUTO" (1/1000) 3 none none) ⟨"F", ["a", "b"]⟩
        (some (.int 0)) (some (.str "b")) none none none none ⟨none, ""⟩ ⟨[], []⟩
      = Except.error (.typeError "x")
    ∧ train (automlInit 3600 none "AUTO" (1/1000) 3 none none) ⟨"F", ["a", "b"]⟩
        (some (.str "a")) (some (.str "b")) none none none none ⟨none, ""⟩ ⟨[], []⟩
      = Except.error (.typeError "x")
    ∧ normalizeX (.list [.str "a"]) = Except.ok [.str "a"] :=
  ⟨(train_bare_x_rejected ⟨"F", ["a", "b"]⟩ "b" (by decide)).1
      (automlInit 3600 none "AUTO" (1/1000) 3 none none) 0 ⟨none, ""⟩ ⟨[], []⟩,
   (train_bare_x_rejected ⟨"F", ["a", "b"]⟩ "b" (by decide)).2.1
      (automlInit 3600 none "AUTO" (1/1000) 3 none none) "a" ⟨none, ""⟩ ⟨[], []⟩,
   (train_bare_x_rejected ⟨"F", ["a", "b"]⟩ "b" (by decide)).2.2 [.str "a"]⟩
